import Mathlib

/-!
# slackbuffer: a verification development

A shallow embedding of the Go package `slackbuffer` (`config.go`, `logging.go`,
`slackbuffer.go`) and theorems about its buffering event loop.

Conventions of the embedding:

* a Go `error` is an `Option String`: `none` is `nil`, `some t` is an error whose
  `Error()` text is `t` (so `fmt.Errorf("p: %w", err)` is `"p: " ++ t`);
* side effects are recorded in an explicit `World` that every effectful function
  threads through: the calls made to `SendMessage`, the requests handed to the HTTP
  client, the texts handed to the log sink, and what the sinks wrote;
* the Go standard library (`json.Marshal`, `http.NewRequestWithContext`,
  `http.DefaultClient`) is a parameter, the structure `Runtime`;
* a panic is the `none` of an `Option`.
-/

namespace slackbuffer

/-! ## Standard-library types -/

/-- Go's `time.Duration`: a count of nanoseconds. -/
abbrev Duration := Int

/-- Go's `time.Millisecond`. -/
def Millisecond : Duration := 1000000

/-- Go's `time.Second`. -/
def Second : Duration := 1000000000

/-- What the package uses of a `context.Context`: the timeout it carries, if any. -/
structure Context where
  timeout : Option Duration
  deriving DecidableEq, Repr

/-- Go's `context.Background()`: no deadline. -/
def Background : Context := { timeout := none }

/-- Go's `context.WithTimeout(parent, d)`: the earlier of the parent's deadline and `d`. -/
def WithTimeout (parent : Context) (d : Duration) : Context :=
  match parent.timeout with
  | none => { timeout := some d }
  | some p => { timeout := some (min p d) }

/-- Go's `context.WithCancel(parent)`: the deadline is the parent's. -/
def WithCancel (parent : Context) : Context := parent

/-- Go's `strings.Join`. -/
def stringsJoin (elems : List String) (sep : String) : String :=
  match elems with
  | [] => ""
  | [e] => e
  | e :: rest => rest.foldl (fun acc s => acc ++ sep ++ s) e

/-- An `*http.Request`: context, method, URL, body and the header lines added to it. -/
structure Request where
  ctx : Context
  method : String
  url : String
  body : String
  header : List (String × String)
  deriving DecidableEq, Repr

/-- Go's `req.Header.Add(key, value)`. -/
def Request.headerAdd (req : Request) (key value : String) : Request :=
  { req with header := req.header ++ [(key, value)] }

/-- An `*http.Response`, as far as a caller could inspect it. -/
structure Response where
  StatusCode : Int
  Body : String
  deriving DecidableEq, Repr

/-- An `*http.Client`. `Do k req` is the outcome of the round trip for `req` when `k`
requests were made before it: a response (of any status) or a transport error. -/
structure HTTPClient where
  Do : Nat → Request → Except String Response

/-- Modelled from the spec: the struct `slackRequest`, whose declaration is not among
the sources. The wire contract gives the JSON object two fields, a destination
channel and a text payload; `SendMessage` fills them as `Channel` and `Text`. -/
structure slackRequest where
  Channel : String
  Text : String
  deriving DecidableEq, Repr

/-- The parts of the Go standard library the package calls. -/
structure Runtime where
  jsonMarshal : slackRequest → Except String String
  NewRequestWithContext : Context → String → String → String → Except String Request
  DefaultClient : HTTPClient

/-! ## Effects -/

/-- The observable effects of the package. -/
structure World where
  /-- The calls of `SendMessage`, oldest first: context and message. -/
  sendCalls : List (Context × String)
  /-- The requests handed to `httpClient.Do`, oldest first. -/
  httpCalls : List Request
  /-- The texts handed to the log sink `s.log`, oldest first. -/
  logCalls : List String
  /-- What the log sinks wrote. -/
  output : String

/-- No effect has happened yet. -/
def World.empty : World := { sendCalls := [], httpCalls := [], logCalls := [], output := "" }

/-! ## logging.go -/

/-- The type `LogFunc`: a sink takes a message and extends what has been written. -/
abbrev LogFunc := String → String → String

/-- The function `defaultLog`: `fmt.Fprintln(os.Stderr, message)`. -/
def defaultLog : LogFunc := fun message out => out ++ message ++ "\n"

/-- The function `NoLog`: writes nothing. -/
def NoLog : LogFunc := fun _ out => out

/-! ## config.go -/

/-- The struct `Config`. A nil `Log` or `HTTPClient` is `none`. -/
structure Config where
  Interval : Duration
  MessageChannelSize : Int
  Log : Option LogFunc
  HTTPClient : Option HTTPClient
  Timeout : Duration

/-- The method `Config.useDefault`. -/
def Config.useDefault (rt : Runtime) (c : Config) : Config :=
  let c := if c.Interval = 0 then { c with Interval := Second } else c
  let c := if c.MessageChannelSize = 0 then { c with MessageChannelSize := 10 } else c
  let c := if c.Log.isNone then { c with Log := some defaultLog } else c
  let c := if c.HTTPClient.isNone then { c with HTTPClient := some rt.DefaultClient } else c
  let c := if c.Timeout = 0 then { c with Timeout := 5 * Second } else c
  c

/-! ## slackbuffer.go -/

/-- The buffered channel `messageCh`: the queued messages (oldest first), the
capacity, whether it has been closed, and the values of the goroutines blocked on a
send to it, in the order the runtime's wait queue holds them (oldest first). A
goroutine is blocked only while the queue is full. -/
structure Chan where
  buf : List String
  cap : Nat
  closed : Bool
  sendq : List String
  deriving DecidableEq, Repr

/-- Go's `make(chan string, n)`. -/
def Chan.make (n : Nat) : Chan := { buf := [], cap := n, closed := false, sendq := [] }

/-- A receive `message, ok := <-ch` inside a `select`: `none` when the case is not
ready (open, empty, no sender waiting); otherwise the received value, `ok`, and the
channel after. The receive takes the oldest queued value, and the oldest blocked
sender, if there is one, then completes its send into the freed slot; with nothing
queued the value comes from the oldest blocked sender directly. -/
def Chan.recv (ch : Chan) : Option (String × Bool × Chan) :=
  match ch.buf, ch.sendq with
  | message :: rest, [] => some (message, true, { ch with buf := rest })
  | message :: rest, blocked :: waiting =>
    some (message, true, { ch with buf := rest ++ [blocked], sendq := waiting })
  | [], blocked :: waiting => some (blocked, true, { ch with sendq := waiting })
  | [], [] => if ch.closed then some ("", false, ch) else none

/-- A send `ch <- message`: the value is queued when there is room, and otherwise
the sending goroutine blocks, holding its value, until a receive frees a slot. -/
def Chan.send (ch : Chan) (message : String) : Chan :=
  if ch.buf.length < ch.cap then { ch with buf := ch.buf ++ [message] }
  else { ch with sendq := ch.sendq ++ [message] }

/-- The struct `slack`. The `cancel` function is not a field of the model: cancelling
is the event `Event.done` of the loop. -/
structure slack where
  Channel : String
  token : String
  buffer : List String
  ctx : Context
  httpClient : HTTPClient
  /-- The period of `ticker`. -/
  ticker : Duration
  messageCh : Chan
  log : LogFunc
  /-- Whether `doneCh` has been closed. -/
  doneCh : Bool
  slackTimeout : Duration

/-- The method `SendMessage`. -/
def SendMessage (rt : Runtime) (s : slack) (ctx : Context) (message : String) (w : World) :
    World × Option String :=
  let w := { w with sendCalls := w.sendCalls ++ [(ctx, message)] }
  let body : slackRequest := { Channel := s.Channel, Text := message }
  match rt.jsonMarshal body with
  | .error err => (w, some ("failed to marshal json body: " ++ err))
  | .ok b =>
    match rt.NewRequestWithContext ctx "POST" "https://slack.com/api/chat.postMessage" b with
    | .error err => (w, some ("failed to make http request: " ++ err))
    | .ok req =>
      let req := req.headerAdd "authorization" ("Bearer " ++ s.token)
      let req := req.headerAdd "content-type" "application/json; charset=UTF-8"
      match s.httpClient.Do w.httpCalls.length req with
      | .error err =>
        ({ w with httpCalls := w.httpCalls ++ [req] }, some ("failed to request slack: " ++ err))
      | .ok _ => ({ w with httpCalls := w.httpCalls ++ [req] }, none)

/-- The method `flushMessage`. -/
def flushMessage (rt : Runtime) (s : slack) (w : World) : slack × World × Option String :=
  if s.buffer.length = 0 then
    (s, w, none)
  else
    let message := stringsJoin s.buffer "\n"
    let s := { s with buffer := s.buffer.take 0 } -- clear buffer
    let ctx := WithTimeout Background (5 * Second)
    match SendMessage rt s ctx message w with
    | (w, some err) => (s, w, some ("failed to send message: " ++ err))
    | (w, none) => (s, w, none)

/-- The `for` loop of `flushChan`, run for at most `fuel` iterations. One iteration
is the `select`: with no value to receive it takes `default` and returns; on a closed
and empty channel it sees `!ok` and returns; otherwise it appends the received
message to the buffer and loops. -/
def flushChanLoop : Nat → slack → slack
  | 0, s => s
  | fuel + 1, s =>
    match s.messageCh.recv with
    | none => s
    | some (_, false, _) => s
    | some (message, true, ch) =>
      flushChanLoop fuel { s with buffer := s.buffer ++ [message], messageCh := ch }

/-- The method `flushChan`. The loop gets one iteration more than there are values to
receive (queued or held by blocked senders), which is what it needs to return by
itself (`flushChanLoop_eq`). No send happens between its iterations: a send racing
with the drain is received by it exactly as if it had happened before the signal, or
is not received, as if it had happened after the loop returned. -/
def flushChan (s : slack) : slack :=
  flushChanLoop (s.messageCh.buf.length + s.messageCh.sendq.length + 1) s

/-- The call `s.log(text)`: the sink runs and the call is recorded. -/
def callLog (s : slack) (text : String) (w : World) : World :=
  { w with logCalls := w.logCalls ++ [text], output := s.log text w.output }

/-- The goroutine started by `AddMessage`, at its send `s.messageCh <- message`:
the message is queued when the queue has room, and otherwise the goroutine stays
blocked on the send with its message, which a later receive takes over. On a closed
channel the send would panic; the package never closes `messageCh`, and the model
leaves such a service unchanged. -/
def AddMessage (s : slack) (message : String) : slack :=
  if s.messageCh.closed then s
  else { s with messageCh := s.messageCh.send message }

/-- What can happen next to a running service: one of the three cases of the
`select` in `startService` is taken, or a producer goroutine completes its send. -/
inductive Event where
  /-- The case `<-s.ticker.C`. -/
  | tick
  /-- The case `message, ok := <-s.messageCh`. -/
  | message
  /-- The case `<-s.ctx.Done()`. -/
  | done
  /-- A goroutine of `AddMessage(m)` reaches its send: it completes or blocks. -/
  | addMessage (m : String)
  deriving DecidableEq, Repr

/-- One iteration of the `for` loop of `startService` (or one producer send). The
third component says whether `startService` has returned. -/
def iteration (rt : Runtime) (ev : Event) (s : slack) (w : World) : slack × World × Bool :=
  match ev with
  | .tick =>
    match flushMessage rt s w with
    | (s, w, some err) => (s, callLog s err w, false)
    | (s, w, none) => (s, w, false)
  | .message =>
    match s.messageCh.recv with
    | none => (s, w, false)
    | some (_, false, ch) => ({ s with messageCh := ch }, w, false)
    | some (message, true, ch) =>
      ({ s with buffer := s.buffer ++ [message], messageCh := ch }, w, false)
  | .done =>
    let s := flushChan s
    match flushMessage rt s w with
    | (s, w, some err) => ({ s with doneCh := true }, callLog s err w, true)
    | (s, w, none) => ({ s with doneCh := true }, w, true)
  | .addMessage m => (AddMessage s m, w, false)

/-- The method `startService`, run along a schedule of events: it stops at the first
`done`, and events after it are not processed. -/
def startService (rt : Runtime) : List Event → slack → World → slack × World × Bool
  | [], s, w => (s, w, false)
  | ev :: evs, s, w =>
    match iteration rt ev s w with
    | (s, w, true) => (s, w, true)
    | (s, w, false) => startService rt evs s w

/-- The function `NewSlackWithConfig`, up to the start of the goroutine: the service
as constructed. `none` is a panic: `make` with a negative size, or `time.NewTicker`
with a non-positive period. -/
def NewSlackWithConfig (rt : Runtime) (ctx : Context) (token channel : String)
    (config : Config) : Option slack :=
  let config := config.useDefault rt
  let ctx := WithCancel ctx
  if config.MessageChannelSize < 0 then none
  else if config.Interval ≤ 0 then none
  else
    match config.HTTPClient, config.Log with
    | some client, some log =>
      some
        { Channel := channel
          token := token
          buffer := List.replicate config.MessageChannelSize.toNat ""
          ctx := ctx
          httpClient := client
          ticker := config.Interval
          messageCh := Chan.make config.MessageChannelSize.toNat
          log := log
          doneCh := false
          slackTimeout := config.Timeout }
    | _, _ => none

/-- The empty config literal `Config{}`. -/
def Config.zero : Config :=
  { Interval := 0, MessageChannelSize := 0, Log := none, HTTPClient := none, Timeout := 0 }

/-- The function `NewSlack`. -/
def NewSlack (rt : Runtime) (ctx : Context) (token channel : String) : Option slack :=
  NewSlackWithConfig rt ctx token channel Config.zero

/-! ## Fixtures for concrete runs -/

/-- A runtime whose encoder and request constructor succeed and whose default client
answers every request with status 200. The encoder writes the two fields without
escaping. -/
def stdRuntime : Runtime :=
  { jsonMarshal := fun b =>
      .ok ("\x7b\"channel\":\"" ++ b.Channel ++ "\",\"text\":\"" ++ b.Text ++ "\"\x7d")
    NewRequestWithContext := fun ctx method url body =>
      .ok { ctx := ctx, method := method, url := url, body := body, header := [] }
    DefaultClient := { Do := fun _ _ => .ok { StatusCode := 200, Body := "ok" } } }

/-- A client whose every round trip fails with the transport error `boom`. -/
def failingClient : HTTPClient := { Do := fun _ _ => .error "boom" }

/-- A client whose every round trip completes with the HTTP status 500. -/
def status500Client : HTTPClient :=
  { Do := fun _ _ => .ok { StatusCode := 500, Body := "internal error" } }

/-- A service value with the given buffer, queue and client, for concrete runs. -/
def sampleSlack (buffer queue : List String) (client : HTTPClient) : slack :=
  { Channel := "#alert"
    token := "xoxb"
    buffer := buffer
    ctx := Background
    httpClient := client
    ticker := Second
    messageCh := { buf := queue, cap := 10, closed := false, sendq := [] }
    log := defaultLog
    doneCh := false
    slackTimeout := 5 * Second }

/-- The config every field of which is its documented default. -/
def Config.allDefaults (rt : Runtime) : Config :=
  { Interval := Second
    MessageChannelSize := 10
    Log := some defaultLog
    HTTPClient := some rt.DefaultClient
    Timeout := 5 * Second }

/-- The service `NewSlackWithConfig` builds at `stdRuntime` for the token `xoxb` and
the channel `#alert` from a config with the given positive period, positive queue
size and timeout (and no log sink or client of its own): the expected value,
written out. -/
def built (interval : Duration) (size : Nat) (timeout : Duration) : slack :=
  { Channel := "#alert"
    token := "xoxb"
    buffer := List.replicate size ""
    ctx := Background
    httpClient := stdRuntime.DefaultClient
    ticker := interval
    messageCh := { buf := [], cap := size, closed := false, sendq := [] }
    log := defaultLog
    doneCh := false
    slackTimeout := timeout }

/-- A service with an empty buffer and a queue of capacity 1, after three producers
reached their sends of `a`, `b` and `c`: `a` is queued, `b` and `c` are held by
blocked goroutines. -/
def blockedSendersSlack : slack :=
  AddMessage
    (AddMessage
      (AddMessage { sampleSlack [] [] stdRuntime.DefaultClient with messageCh := Chan.make 1 } "a")
      "b")
    "c"

/-- The context `flushMessage` sends under. -/
def flushContext : Context := WithTimeout Background (5 * Second)

/-! ## Ghost observers of a run -/

/-- The messages one iteration appends to the buffer. -/
def arrivedIn (ev : Event) (s : slack) : List String :=
  match ev with
  | .message =>
    match s.messageCh.recv with
    | some (message, true, _) => [message]
    | _ => []
  | .done => s.messageCh.buf ++ s.messageCh.sendq
  | _ => []

/-- The buffer one iteration calls `flushMessage` on, when it calls it. -/
def handedIn (ev : Event) (s : slack) : List (List String) :=
  match ev with
  | .tick => [s.buffer]
  | .done => [(flushChan s).buffer]
  | _ => []

/-- The messages appended to the buffer along a run of `startService`, in order. -/
def arrived (rt : Runtime) : List Event → slack → World → List String
  | [], _, _ => []
  | ev :: evs, s, w =>
    arrivedIn ev s ++
      (match iteration rt ev s w with
       | (_, _, true) => []
       | (s, w, false) => arrived rt evs s w)

/-- The buffers handed to the successive calls of `flushMessage` along a run. -/
def handed (rt : Runtime) : List Event → slack → World → List (List String)
  | [], _, _ => []
  | ev :: evs, s, w =>
    handedIn ev s ++
      (match iteration rt ev s w with
       | (_, _, true) => []
       | (s, w, false) => handed rt evs s w)

/-- The `SendMessage` calls that flushing the given buffers makes: one per non-empty
buffer, under the flush context, with the newline-joined text. -/
def batchesOf (bufs : List (List String)) : List (Context × String) :=
  (bufs.filter (fun b => b ≠ [])).map (fun b => (flushContext, stringsJoin b "\n"))

/-- Whether an event makes the loop call `flushMessage`. -/
def Event.flushes : Event → Bool
  | .tick => true
  | .done => true
  | _ => false

/-! ## Basic lemmas -/

theorem flushContext_timeout : flushContext = { timeout := some 5000000000 } := by
  decide

theorem stringsJoin_foldl (sep : String) (rest : List String) (acc : String) :
    String.intercalate.go acc sep rest = rest.foldl (fun a s => a ++ sep ++ s) acc := by
  induction rest generalizing acc with
  | nil => simp [String.intercalate.go]
  | cons x xs ih => simp [String.intercalate.go, ih]

theorem stringsJoin_eq_intercalate (elems : List String) (sep : String) :
    stringsJoin elems sep = sep.intercalate elems := by
  match elems with
  | [] => rfl
  | [e] => simp [stringsJoin, String.intercalate, String.intercalate.go]
  | e :: x :: rest =>
    simp [stringsJoin, String.intercalate, stringsJoin_foldl]

theorem flushChanLoop_eq (fuel : Nat) (s : slack)
    (h : s.messageCh.buf.length + s.messageCh.sendq.length < fuel) :
    flushChanLoop fuel s
      = { s with
          buffer := s.buffer ++ s.messageCh.buf ++ s.messageCh.sendq
          messageCh := { s.messageCh with buf := [], sendq := [] } } := by
  induction fuel generalizing s with
  | zero => exact absurd h (Nat.not_lt_zero _)
  | succ n ih =>
    obtain ⟨ch0, tk, b, cx, hc, ti, ⟨q, cp, cl, sq⟩, lg, dn, st⟩ := s
    cases q with
    | nil =>
      cases sq with
      | nil =>
        cases cl <;> simp [flushChanLoop, Chan.recv]
      | cons x xs =>
        simp only [flushChanLoop, Chan.recv]
        rw [ih]
        · simp
        · simp only [List.length_cons, List.length_nil] at h ⊢
          omega
    | cons m rest =>
      cases sq with
      | nil =>
        simp only [flushChanLoop, Chan.recv]
        rw [ih]
        · simp
        · simp only [List.length_cons, List.length_nil] at h ⊢
          omega
      | cons x xs =>
        simp only [flushChanLoop, Chan.recv]
        rw [ih]
        · simp
        · simp only [List.length_cons, List.length_append, List.length_nil] at h ⊢
          omega

theorem flushChan_eq (s : slack) :
    flushChan s
      = { s with
          buffer := s.buffer ++ s.messageCh.buf ++ s.messageCh.sendq
          messageCh := { s.messageCh with buf := [], sendq := [] } } :=
  flushChanLoop_eq _ s (Nat.lt_succ_self _)

theorem SendMessage_sendCalls (rt : Runtime) (s : slack) (ctx : Context) (message : String)
    (w : World) :
    (SendMessage rt s ctx message w).1.sendCalls = w.sendCalls ++ [(ctx, message)] := by
  unfold SendMessage
  simp only []
  split
  · rfl
  · split
    · rfl
    · split <;> rfl

theorem SendMessage_logCalls (rt : Runtime) (s : slack) (ctx : Context) (message : String)
    (w : World) :
    (SendMessage rt s ctx message w).1.logCalls = w.logCalls
    ∧ (SendMessage rt s ctx message w).1.output = w.output := by
  unfold SendMessage
  simp only []
  split
  · exact ⟨rfl, rfl⟩
  · split
    · exact ⟨rfl, rfl⟩
    · split <;> exact ⟨rfl, rfl⟩

theorem SendMessage_httpCalls (rt : Runtime) (s : slack) (ctx : Context) (message : String)
    (w : World) :
    (SendMessage rt s ctx message w).1.httpCalls.length ≤ w.httpCalls.length + 1 := by
  unfold SendMessage
  simp only []
  split
  · simp
  · split
    · simp
    · split <;> simp

theorem flushMessage_nil (rt : Runtime) (s : slack) (w : World) (h : s.buffer = []) :
    flushMessage rt s w = (s, w, none) := by
  simp [flushMessage, h]

theorem flushMessage_cons (rt : Runtime) (s : slack) (w : World) (h : s.buffer ≠ []) :
    flushMessage rt s w =
      ({ s with buffer := [] },
       (SendMessage rt { s with buffer := [] } flushContext (stringsJoin s.buffer "\n") w).1,
       (SendMessage rt { s with buffer := [] } flushContext (stringsJoin s.buffer "\n") w).2.map
         (fun err => "failed to send message: " ++ err)) := by
  have hlen : ¬ s.buffer.length = 0 := by
    intro h0
    exact h (List.length_eq_zero.mp h0)
  unfold flushMessage
  rw [if_neg hlen]
  simp only [List.take_zero, flushContext]
  split
  · next w1 err heq => simp [heq]
  · next w1 heq => simp [heq]

theorem iteration_tick (rt : Runtime) (s : slack) (w : World) :
    iteration rt Event.tick s w =
      ((flushMessage rt s w).1,
       (match (flushMessage rt s w).2.2 with
        | some err => callLog (flushMessage rt s w).1 err (flushMessage rt s w).2.1
        | none => (flushMessage rt s w).2.1),
       false) := by
  unfold iteration
  simp only []
  split
  · next s1 w1 err heq => simp [heq]
  · next s1 w1 heq => simp [heq]

theorem iteration_done (rt : Runtime) (s : slack) (w : World) :
    iteration rt Event.done s w =
      ({ (flushMessage rt (flushChan s) w).1 with doneCh := true },
       (match (flushMessage rt (flushChan s) w).2.2 with
        | some err =>
          callLog (flushMessage rt (flushChan s) w).1 err (flushMessage rt (flushChan s) w).2.1
        | none => (flushMessage rt (flushChan s) w).2.1),
       true) := by
  unfold iteration
  simp only []
  split
  · next s1 w1 err heq => simp [heq]
  · next s1 w1 heq => simp [heq]

theorem flushChan_buffer (s : slack) :
    (flushChan s).buffer = s.buffer ++ (s.messageCh.buf ++ s.messageCh.sendq) := by
  rw [flushChan_eq, List.append_assoc]

theorem flushMessage_buffer (rt : Runtime) (s : slack) (w : World) :
    (flushMessage rt s w).1.buffer = [] := by
  by_cases h : s.buffer = []
  · rw [flushMessage_nil rt s w h]; exact h
  · rw [flushMessage_cons rt s w h]

theorem flushMessage_messageCh (rt : Runtime) (s : slack) (w : World) :
    (flushMessage rt s w).1.messageCh = s.messageCh := by
  by_cases h : s.buffer = []
  · rw [flushMessage_nil rt s w h]
  · rw [flushMessage_cons rt s w h]

theorem flushMessage_sendCalls (rt : Runtime) (s : slack) (w : World) :
    (flushMessage rt s w).2.1.sendCalls = w.sendCalls ++ batchesOf [s.buffer] := by
  by_cases h : s.buffer = []
  · rw [flushMessage_nil rt s w h]; simp [batchesOf, h]
  · rw [flushMessage_cons rt s w h]; simp [batchesOf, h, SendMessage_sendCalls]

theorem iteration_message (rt : Runtime) (s : slack) (w : World) :
    (iteration rt Event.message s w).1.buffer = s.buffer ++ arrivedIn Event.message s
    ∧ (iteration rt Event.message s w).2.1 = w
    ∧ (iteration rt Event.message s w).2.2 = false := by
  unfold iteration arrivedIn
  simp only []
  split
  · next heq => simp [heq]
  · next v ch heq => simp [heq]
  · next m ch heq => simp [heq]

theorem iteration_addMessage (rt : Runtime) (s : slack) (w : World) (m : String) :
    (iteration rt (Event.addMessage m) s w).1.buffer = s.buffer
    ∧ (iteration rt (Event.addMessage m) s w).2.1 = w
    ∧ (iteration rt (Event.addMessage m) s w).2.2 = false := by
  simp only [iteration, AddMessage]
  split <;> simp

theorem callLog_sendCalls (s : slack) (text : String) (w : World) :
    (callLog s text w).sendCalls = w.sendCalls := rfl

theorem iteration_exits (rt : Runtime) (ev : Event) (s : slack) (w : World) :
    (iteration rt ev s w).2.2 = decide (ev = Event.done) := by
  cases ev with
  | tick => rw [iteration_tick]; rfl
  | message => rw [(iteration_message rt s w).2.2]; rfl
  | done => rw [iteration_done]; rfl
  | addMessage m => rw [(iteration_addMessage rt s w m).2.2]; rfl

theorem iteration_buffer (rt : Runtime) (ev : Event) (s : slack) (w : World) :
    (iteration rt ev s w).1.buffer
      = if ev.flushes then [] else s.buffer ++ arrivedIn ev s := by
  cases ev with
  | tick => rw [iteration_tick]; simp [Event.flushes, flushMessage_buffer]
  | message => rw [(iteration_message rt s w).1]; simp [Event.flushes]
  | done => rw [iteration_done]; simp [Event.flushes, flushMessage_buffer]
  | addMessage m => rw [(iteration_addMessage rt s w m).1]; simp [Event.flushes, arrivedIn]

theorem handedIn_eq (ev : Event) (s : slack) :
    handedIn ev s = if ev.flushes then [s.buffer ++ arrivedIn ev s] else [] := by
  cases ev <;> simp [handedIn, Event.flushes, arrivedIn, flushChan_buffer]

theorem iteration_sendCalls (rt : Runtime) (ev : Event) (s : slack) (w : World) :
    (iteration rt ev s w).2.1.sendCalls = w.sendCalls ++ batchesOf (handedIn ev s) := by
  cases ev with
  | tick =>
    rw [iteration_tick]
    simp only [handedIn]
    cases h : (flushMessage rt s w).2.2 <;>
      simp [callLog_sendCalls, flushMessage_sendCalls]
  | message => rw [(iteration_message rt s w).2.1]; simp [handedIn, batchesOf]
  | done =>
    rw [iteration_done]
    simp only [handedIn]
    cases h : (flushMessage rt (flushChan s) w).2.2 <;>
      simp [callLog_sendCalls, flushMessage_sendCalls]
  | addMessage m => rw [(iteration_addMessage rt s w m).2.1]; simp [handedIn, batchesOf]

theorem startService_cons (rt : Runtime) (ev : Event) (evs : List Event) (s : slack)
    (w : World) :
    startService rt (ev :: evs) s w =
      if (iteration rt ev s w).2.2 then iteration rt ev s w
      else startService rt evs (iteration rt ev s w).1 (iteration rt ev s w).2.1 := by
  rw [startService]
  split
  · next s1 w1 heq => simp [heq]
  · next s1 w1 heq => simp [heq]

theorem arrived_cons (rt : Runtime) (ev : Event) (evs : List Event) (s : slack) (w : World) :
    arrived rt (ev :: evs) s w =
      arrivedIn ev s ++
        (if (iteration rt ev s w).2.2 then []
         else arrived rt evs (iteration rt ev s w).1 (iteration rt ev s w).2.1) := by
  rw [arrived]
  split
  · next s1 w1 heq => simp [heq]
  · next s1 w1 heq => simp [heq]

theorem handed_cons (rt : Runtime) (ev : Event) (evs : List Event) (s : slack) (w : World) :
    handed rt (ev :: evs) s w =
      handedIn ev s ++
        (if (iteration rt ev s w).2.2 then []
         else handed rt evs (iteration rt ev s w).1 (iteration rt ev s w).2.1) := by
  rw [handed]
  split
  · next s1 w1 heq => simp [heq]
  · next s1 w1 heq => simp [heq]

theorem batchesOf_append (xs ys : List (List String)) :
    batchesOf (xs ++ ys) = batchesOf xs ++ batchesOf ys := by
  simp [batchesOf]

theorem batchesOf_singleton (b : List String) (h : b ≠ []) :
    batchesOf [b] = [(flushContext, stringsJoin b "\n")] := by
  simp [batchesOf, h]

theorem startService_append (rt : Runtime) (pre post : List Event) (s : slack) (w : World)
    (h : (startService rt pre s w).2.2 = false) :
    startService rt (pre ++ post) s w
      = startService rt post (startService rt pre s w).1 (startService rt pre s w).2.1 := by
  induction pre generalizing s w with
  | nil => rfl
  | cons ev evs ih =>
    rw [List.cons_append, startService_cons]
    rw [startService_cons] at h ⊢
    by_cases hx : (iteration rt ev s w).2.2 = true
    · rw [if_pos hx] at h
      rw [hx] at h
      exact absurd h (by decide)
    · rw [if_neg hx] at h ⊢
      rw [if_neg hx]
      exact ih _ _ h

/-- Conservation along a run: the flushed buffers, then what is left in the buffer,
are the starting buffer followed by the arrivals. -/
theorem run_conservation (rt : Runtime) (evs : List Event) (s : slack) (w : World) :
    (handed rt evs s w).flatten ++ (startService rt evs s w).1.buffer
      = s.buffer ++ arrived rt evs s w := by
  induction evs generalizing s w with
  | nil => simp [handed, arrived, startService]
  | cons ev evs ih =>
    rw [startService_cons, arrived_cons, handed_cons]
    have hb := iteration_buffer rt ev s w
    have hh := handedIn_eq ev s
    by_cases hx : (iteration rt ev s w).2.2 = true
    · simp only [hx, if_true, List.append_nil]
      rw [hb, hh]
      cases hf : ev.flushes <;> simp
    · simp only [hx, if_false, Bool.false_eq_true]
      rw [List.flatten_append, List.append_assoc, ih, hb, hh]
      cases hf : ev.flushes <;> simp

/-- The calls of `SendMessage` along a run are those of the flushed buffers. -/
theorem run_sendCalls (rt : Runtime) (evs : List Event) (s : slack) (w : World) :
    (startService rt evs s w).2.1.sendCalls
      = w.sendCalls ++ batchesOf (handed rt evs s w) := by
  induction evs generalizing s w with
  | nil => simp [handed, startService, batchesOf]
  | cons ev evs ih =>
    rw [startService_cons, handed_cons]
    by_cases hx : (iteration rt ev s w).2.2 = true
    · simp only [hx, if_true, List.append_nil]
      exact iteration_sendCalls rt ev s w
    · simp only [hx, if_false, Bool.false_eq_true]
      rw [ih, iteration_sendCalls, batchesOf_append, List.append_assoc]

/-- Without a flush, a run only appends its arrivals to the buffer. -/
theorem run_no_flush (rt : Runtime) (evs : List Event) (s : slack) (w : World)
    (h : ∀ e ∈ evs, e.flushes = false) :
    (startService rt evs s w).1.buffer = s.buffer ++ arrived rt evs s w
    ∧ (startService rt evs s w).2.1.sendCalls = w.sendCalls := by
  have hc := run_conservation rt evs s w
  have hs := run_sendCalls rt evs s w
  have hn : handed rt evs s w = [] := by
    induction evs generalizing s w with
    | nil => rfl
    | cons ev evs ih =>
      have hev : ev.flushes = false := h ev (List.mem_cons_self _ _)
      rw [handed_cons, handedIn_eq, hev]
      have hx : (iteration rt ev s w).2.2 = false := by
        rw [iteration_exits]
        cases ev <;> simp_all [Event.flushes]
      simp only [hx, Bool.false_eq_true, if_false]
      have hrest : ∀ e ∈ evs, e.flushes = false :=
        fun e he => h e (List.mem_cons_of_mem _ he)
      simpa using ih _ _ hrest (run_conservation rt evs _ _) (run_sendCalls rt evs _ _)
  rw [hn] at hc hs
  constructor
  · simpa using hc
  · simpa [batchesOf] using hs

/-! ## The flush -/

/-- C3: on a non-empty buffer `flushMessage` calls `SendMessage` exactly once, under
the flush context and with the buffer's messages joined by single newlines in
buffer order; it leaves the buffer empty (and the rest of the service untouched)
whatever the send returns; its world is the one the send produced, with at most one
HTTP request more; and it returns an error exactly when the send returned one, the
send's text wrapped in `failed to send message: `. -/
theorem flushMessage_nonempty_sends_once (rt : Runtime) (s : slack) (w : World)
    (h : s.buffer ≠ []) :
    (flushMessage rt s w).2.1.sendCalls
        = w.sendCalls ++ [(flushContext, stringsJoin s.buffer "\n")]
    ∧ stringsJoin s.buffer "\n" = "\n".intercalate s.buffer
    ∧ (flushMessage rt s w).1.buffer = []
    ∧ (flushMessage rt s w).1 = { s with buffer := [] }
    ∧ (flushMessage rt s w).2.1
        = (SendMessage rt { s with buffer := [] } flushContext (stringsJoin s.buffer "\n") w).1
    ∧ (flushMessage rt s w).2.1.httpCalls.length ≤ w.httpCalls.length + 1
    ∧ ((flushMessage rt s w).2.2 ≠ none ↔
        (SendMessage rt { s with buffer := [] } flushContext
          (stringsJoin s.buffer "\n") w).2 ≠ none)
    ∧ (flushMessage rt s w).2.2
        = (SendMessage rt { s with buffer := [] } flushContext
            (stringsJoin s.buffer "\n") w).2.map (fun err => "failed to send message: " ++ err) := by
  rw [flushMessage_cons rt s w h]
  refine ⟨SendMessage_sendCalls _ _ _ _ _, stringsJoin_eq_intercalate _ _, rfl, rfl, rfl,
    SendMessage_httpCalls _ _ _ _ _, ?_, rfl⟩
  cases (SendMessage rt { s with buffer := [] } flushContext (stringsJoin s.buffer "\n") w).2
    <;> simp

/-- C3, at the buffer `a, b` with a client that succeeds: one call, with the text
`a\nb`; the buffer is empty and no error is returned. -/
theorem flushMessage_nonempty_sends_once_witness :
    (sampleSlack ["a", "b"] [] stdRuntime.DefaultClient).buffer ≠ []
    ∧ (flushMessage stdRuntime (sampleSlack ["a", "b"] [] stdRuntime.DefaultClient)
        World.empty).2.1.sendCalls = [(flushContext, "a\nb")]
    ∧ (flushMessage stdRuntime (sampleSlack ["a", "b"] [] stdRuntime.DefaultClient)
        World.empty).1.buffer = []
    ∧ (flushMessage stdRuntime (sampleSlack ["a", "b"] [] stdRuntime.DefaultClient)
        World.empty).2.2 = none := by
  have key := flushMessage_nonempty_sends_once stdRuntime
    (sampleSlack ["a", "b"] [] stdRuntime.DefaultClient) World.empty (by simp [sampleSlack])
  refine ⟨by simp [sampleSlack], ?_, key.2.2.1, ?_⟩
  · rw [key.1]; rfl
  · rw [key.2.2.2.2.2.2.2]; rfl

/-- C4: on an empty buffer `flushMessage` does nothing: the service and the world
(so the calls of `SendMessage` and the HTTP requests) are unchanged, the buffer is
still empty, and the error is nil. -/
theorem flushMessage_empty_noop (rt : Runtime) (s : slack) (w : World)
    (h : s.buffer.length = 0) :
    flushMessage rt s w = (s, w, none)
    ∧ (flushMessage rt s w).2.1.sendCalls = w.sendCalls
    ∧ (flushMessage rt s w).2.1.httpCalls = w.httpCalls
    ∧ (flushMessage rt s w).1.buffer = []
    ∧ (flushMessage rt s w).2.2 = none := by
  have hb : s.buffer = [] := List.length_eq_zero.mp h
  rw [flushMessage_nil rt s w hb]
  exact ⟨rfl, rfl, rfl, hb, rfl⟩

/-- C4, at a service with an empty buffer and a client that would fail: nothing is
sent and nothing is returned. -/
theorem flushMessage_empty_noop_witness :
    (sampleSlack [] ["q"] failingClient).buffer.length = 0
    ∧ (flushMessage stdRuntime (sampleSlack [] ["q"] failingClient) World.empty).2.1.sendCalls = []
    ∧ (flushMessage stdRuntime (sampleSlack [] ["q"] failingClient) World.empty).2.2 = none := by
  have key := flushMessage_empty_noop stdRuntime (sampleSlack [] ["q"] failingClient)
    World.empty (by simp [sampleSlack])
  exact ⟨by simp [sampleSlack], key.2.1, key.2.2.2.2⟩

/-! ## The shutdown branch -/

/-- C5, as stated, fails: the drain does not stop at the queued messages. With a
queue of capacity 1 holding `a` and two producers blocked on their sends of `b` and
`c`, `flushChan` leaves the buffer `a, b, c` and the final batch is `a\nb\nc`, not
the buffer followed by the queue content, `a`. -/
theorem shutdown_claim_fails_with_blocked_senders :
    blockedSendersSlack.buffer = []
    ∧ blockedSendersSlack.messageCh.cap = 1
    ∧ blockedSendersSlack.messageCh.buf = ["a"]
    ∧ blockedSendersSlack.messageCh.sendq = ["b", "c"]
    ∧ (flushChan blockedSendersSlack).buffer = ["a", "b", "c"]
    ∧ (iteration stdRuntime Event.done blockedSendersSlack World.empty).2.1.sendCalls
        = [(flushContext, "a\nb\nc")]
    ∧ ¬ ((flushChan blockedSendersSlack).buffer
          = blockedSendersSlack.buffer ++ blockedSendersSlack.messageCh.buf)
    ∧ ¬ ((iteration stdRuntime Event.done blockedSendersSlack World.empty).2.1.sendCalls
          = World.empty.sendCalls ++
              [(flushContext,
                stringsJoin
                  (blockedSendersSlack.buffer ++ blockedSendersSlack.messageCh.buf) "\n")]) := by
  refine ⟨rfl, rfl, rfl, rfl, rfl, rfl, by decide, by decide⟩

/-- C5, amended: on the shutdown signal, from any buffer, any queued messages and any
messages held by producers blocked on the full queue, the iteration is total and
does this: `flushChan` returns by itself, having moved the queued messages and then
the blocked producers' messages into the buffer, in that order, leaving the queue
empty and no producer blocked (with no producer blocked, the buffer is the old
buffer followed by the queue); `flushMessage` runs once, on that buffer, so
`SendMessage` is called once with its newline-join when it is non-empty and not at
all when it is empty; then `doneCh` is closed and the loop has returned: the events
after the signal are not processed, the run flushed exactly that one buffer and
appended exactly the drained messages. -/
theorem shutdown_drains_queue_and_blocked_senders (rt : Runtime) (s : slack) (w : World)
    (evs : List Event) :
    (flushChan s).buffer = s.buffer ++ s.messageCh.buf ++ s.messageCh.sendq
    ∧ (flushChan s).messageCh.buf = []
    ∧ (flushChan s).messageCh.sendq = []
    ∧ (∀ fuel, s.messageCh.buf.length + s.messageCh.sendq.length < fuel →
        flushChanLoop fuel s = flushChan s)
    ∧ (s.messageCh.sendq = [] → (flushChan s).buffer = s.buffer ++ s.messageCh.buf)
    ∧ (iteration rt Event.done s w).1
        = { (flushMessage rt (flushChan s) w).1 with doneCh := true }
    ∧ (iteration rt Event.done s w).2.1.sendCalls
        = w.sendCalls ++
            (if s.buffer ++ s.messageCh.buf ++ s.messageCh.sendq = [] then []
             else [(flushContext,
                    stringsJoin (s.buffer ++ s.messageCh.buf ++ s.messageCh.sendq) "\n")])
    ∧ (s.buffer ++ s.messageCh.buf ++ s.messageCh.sendq = [] →
        (iteration rt Event.done s w).2.1 = w)
    ∧ (iteration rt Event.done s w).1.buffer = []
    ∧ (iteration rt Event.done s w).1.messageCh.buf = []
    ∧ (iteration rt Event.done s w).1.messageCh.sendq = []
    ∧ (iteration rt Event.done s w).1.doneCh = true
    ∧ (iteration rt Event.done s w).2.2 = true
    ∧ startService rt (Event.done :: evs) s w = iteration rt Event.done s w
    ∧ handed rt (Event.done :: evs) s w = [s.buffer ++ s.messageCh.buf ++ s.messageCh.sendq]
    ∧ arrived rt (Event.done :: evs) s w = s.messageCh.buf ++ s.messageCh.sendq := by
  have hexit : (iteration rt Event.done s w).2.2 = true := by
    rw [iteration_exits]; rfl
  have hbuf : (flushChan s).buffer = s.buffer ++ s.messageCh.buf ++ s.messageCh.sendq := by
    rw [flushChan_eq]
  have hch : (iteration rt Event.done s w).1.messageCh = (flushChan s).messageCh := by
    rw [iteration_done]
    simp only []
    rw [flushMessage_messageCh]
  refine ⟨hbuf, ?_, ?_, ?_, ?_, ?_, ?_, ?_, ?_, ?_, ?_, ?_, hexit, ?_, ?_, ?_⟩
  · rw [flushChan_eq]
  · rw [flushChan_eq]
  · intro fuel hfuel
    rw [flushChanLoop_eq fuel s hfuel, flushChan_eq]
  · intro hq
    rw [hbuf, hq, List.append_nil]
  · rw [iteration_done]
  · rw [iteration_sendCalls]
    simp only [handedIn, hbuf]
    by_cases h : s.buffer ++ s.messageCh.buf ++ s.messageCh.sendq = []
    · rw [if_pos h, h]
      rfl
    · rw [if_neg h, batchesOf_singleton _ h]
  · intro h
    have hb : (flushChan s).buffer = [] := by rw [hbuf]; exact h
    rw [iteration_done, flushMessage_nil rt (flushChan s) w hb]
  · rw [iteration_buffer]; rfl
  · rw [hch, flushChan_eq]
  · rw [hch, flushChan_eq]
  · rw [iteration_done]
  · rw [startService_cons, if_pos hexit]
  · rw [handed_cons, if_pos hexit, handedIn, hbuf]
    rfl
  · rw [arrived_cons, if_pos hexit, arrivedIn]
    simp

/-! ## The tick branch -/

/-- C6: when the send of a tick-triggered flush of a non-empty buffer fails with the
text `e`, the iteration hands `failed to send message: e` to the log sink, once; the
sink runs on it; the buffer is empty and the rest of the service is untouched;
`SendMessage` was called once and at most one HTTP request was made; the iteration
returns no error and does not leave the loop, and the run goes on with the events
that follow. -/
theorem tick_failure_logged_and_loop_continues (rt : Runtime) (s : slack) (w : World)
    (e : String) (evs : List Event)
    (hb : s.buffer ≠ [])
    (hfail : (SendMessage rt { s with buffer := [] } flushContext
                (stringsJoin s.buffer "\n") w).2 = some e) :
    (iteration rt Event.tick s w).2.1.logCalls
        = w.logCalls ++ ["failed to send message: " ++ e]
    ∧ (iteration rt Event.tick s w).2.1.output
        = s.log ("failed to send message: " ++ e) w.output
    ∧ (iteration rt Event.tick s w).1 = { s with buffer := [] }
    ∧ (iteration rt Event.tick s w).1.buffer = []
    ∧ (iteration rt Event.tick s w).2.1.sendCalls
        = w.sendCalls ++ [(flushContext, stringsJoin s.buffer "\n")]
    ∧ (iteration rt Event.tick s w).2.1.httpCalls.length ≤ w.httpCalls.length + 1
    ∧ (iteration rt Event.tick s w).2.2 = false
    ∧ startService rt (Event.tick :: evs) s w
        = startService rt evs (iteration rt Event.tick s w).1 (iteration rt Event.tick s w).2.1 := by
  have hl := SendMessage_logCalls rt { s with buffer := [] } flushContext
    (stringsJoin s.buffer "\n") w
  have hh := SendMessage_httpCalls rt { s with buffer := [] } flushContext
    (stringsJoin s.buffer "\n") w
  have hs := SendMessage_sendCalls rt { s with buffer := [] } flushContext
    (stringsJoin s.buffer "\n") w
  have hexit : (iteration rt Event.tick s w).2.2 = false := by
    rw [iteration_exits]; rfl
  refine ⟨?_, ?_, ?_, ?_, ?_, ?_, hexit, ?_⟩
  · rw [iteration_tick, flushMessage_cons rt s w hb, hfail]
    simp [callLog, hl.1]
  · rw [iteration_tick, flushMessage_cons rt s w hb, hfail]
    simp [callLog, hl.2]
  · rw [iteration_tick, flushMessage_cons rt s w hb]
  · rw [iteration_buffer]; rfl
  · rw [iteration_tick, flushMessage_cons rt s w hb, hfail]
    simp [callLog, hs]
  · rw [iteration_tick, flushMessage_cons rt s w hb, hfail]
    simpa [callLog] using hh
  · rw [startService_cons, hexit]
    simp

/-- C6, at the buffer `x, y` with a client whose round trip fails with `boom`: the
sink receives the wrapped text once, the buffer is empty, and the loop is running. -/
theorem tick_failure_logged_and_loop_continues_witness :
    (sampleSlack ["x", "y"] [] failingClient).buffer ≠ []
    ∧ (SendMessage stdRuntime { sampleSlack ["x", "y"] [] failingClient with buffer := [] }
        flushContext (stringsJoin (sampleSlack ["x", "y"] [] failingClient).buffer "\n")
        World.empty).2 = some "failed to request slack: boom"
    ∧ (iteration stdRuntime Event.tick (sampleSlack ["x", "y"] [] failingClient)
        World.empty).2.1.logCalls
        = ["failed to send message: failed to request slack: boom"]
    ∧ (iteration stdRuntime Event.tick (sampleSlack ["x", "y"] [] failingClient)
        World.empty).1.buffer = []
    ∧ (iteration stdRuntime Event.tick (sampleSlack ["x", "y"] [] failingClient)
        World.empty).2.2 = false := by
  have key := tick_failure_logged_and_loop_continues stdRuntime
    (sampleSlack ["x", "y"] [] failingClient) World.empty "failed to request slack: boom" []
    (by simp [sampleSlack]) rfl
  refine ⟨by simp [sampleSlack], rfl, ?_, key.2.2.2.1, key.2.2.2.2.2.2.1⟩
  rw [key.1]
  rfl

/-! ## No loss, no duplication -/

/-- C7: in the event loop, from any starting service and along any finite schedule:
an ingress arrival appends at most the one received message to the end of the
buffer and makes no call of `SendMessage`; right after `flushMessage` the buffer is
empty; the buffers handed to the successive flushes, concatenated, followed by the
buffer that remains, are the starting buffer followed by the arrived messages, each
once and in arrival order; `SendMessage` is called once per non-empty flushed
buffer, with its newline-join, in order; and after a tick, as long as no other flush
happens, the buffer holds exactly the messages arrived since that tick. -/
theorem no_loss_no_duplication (rt : Runtime) (s : slack) (w : World) (evs : List Event) :
    ((iteration rt Event.message s w).1.buffer = s.buffer ++ arrivedIn Event.message s
      ∧ (arrivedIn Event.message s).length ≤ 1
      ∧ (∀ m rest, s.messageCh.buf = m :: rest →
          (iteration rt Event.message s w).1.buffer = s.buffer ++ [m]
          ∧ (s.messageCh.sendq = [] → (iteration rt Event.message s w).1.messageCh.buf = rest)
          ∧ (iteration rt Event.message s w).1.messageCh.buf
                ++ (iteration rt Event.message s w).1.messageCh.sendq
              = rest ++ s.messageCh.sendq)
      ∧ (iteration rt Event.message s w).2.1 = w)
    ∧ (flushMessage rt s w).1.buffer = []
    ∧ (handed rt evs s w).flatten ++ (startService rt evs s w).1.buffer
        = s.buffer ++ arrived rt evs s w
    ∧ (startService rt evs s w).2.1.sendCalls = w.sendCalls ++ batchesOf (handed rt evs s w)
    ∧ (∀ pre post : List Event,
        (startService rt pre s w).2.2 = false →
        (∀ ev ∈ post, ev.flushes = false) →
        (startService rt (pre ++ [Event.tick]) s w).1.buffer = []
        ∧ (startService rt (pre ++ [Event.tick] ++ post) s w).1.buffer
            = arrived rt post (startService rt (pre ++ [Event.tick]) s w).1
                (startService rt (pre ++ [Event.tick]) s w).2.1) := by
  refine ⟨⟨(iteration_message rt s w).1, ?_, ?_, (iteration_message rt s w).2.1⟩,
    flushMessage_buffer rt s w, run_conservation rt evs s w, run_sendCalls rt evs s w, ?_⟩
  · unfold arrivedIn
    simp only []
    split <;> simp
  · intro m rest hq
    cases hs : s.messageCh.sendq <;> simp [iteration, Chan.recv, hq, hs]
  · intro pre post hpre hpost
    have hmid : (startService rt (pre ++ [Event.tick]) s w).1.buffer = [] := by
      rw [startService_append rt pre [Event.tick] s w hpre, startService_cons]
      have hx : (iteration rt Event.tick (startService rt pre s w).1
          (startService rt pre s w).2.1).2.2 = false := by
        rw [iteration_exits]; rfl
      rw [hx]
      simp only [Bool.false_eq_true, if_false, startService]
      rw [iteration_buffer]; rfl
    have hrun : (startService rt (pre ++ [Event.tick]) s w).2.2 = false := by
      rw [startService_append rt pre [Event.tick] s w hpre, startService_cons]
      have hx : (iteration rt Event.tick (startService rt pre s w).1
          (startService rt pre s w).2.1).2.2 = false := by
        rw [iteration_exits]; rfl
      rw [hx]
      simp [startService]
    refine ⟨hmid, ?_⟩
    rw [startService_append rt (pre ++ [Event.tick]) post s w hrun,
      (run_no_flush rt post _ _ hpost).1, hmid]
    simp

/-! ## The immediate send -/

/-- C8, as stated, fails: it is not so that every send whose round trip completes
with a non-success status returns an error. With a client that answers 500,
`SendMessage` returns nil. -/
theorem SendMessage_status_claim_fails :
    ¬ (∀ (rt : Runtime) (s : slack) (ctx : Context) (message : String) (w : World)
        (b : String) (req : Request) (resp : Response),
        rt.jsonMarshal { Channel := s.Channel, Text := message } = .ok b →
        rt.NewRequestWithContext ctx "POST" "https://slack.com/api/chat.postMessage" b
          = .ok req →
        s.httpClient.Do w.httpCalls.length
          ((req.headerAdd "authorization" ("Bearer " ++ s.token)).headerAdd
            "content-type" "application/json; charset=UTF-8") = .ok resp →
        ¬ (200 ≤ resp.StatusCode ∧ resp.StatusCode < 300) →
        (SendMessage rt s ctx message w).2 ≠ none) := by
  intro h
  exact h stdRuntime (sampleSlack [] [] status500Client) Background "hello" World.empty
    "\x7b\"channel\":\"#alert\",\"text\":\"hello\"\x7d"
    { ctx := Background, method := "POST", url := "https://slack.com/api/chat.postMessage",
      body := "\x7b\"channel\":\"#alert\",\"text\":\"hello\"\x7d", header := [] }
    { StatusCode := 500, Body := "internal error" } rfl rfl rfl (by decide) rfl

/-- C8, amended: `SendMessage` returns an error exactly in three cases, each with its
own text: the body cannot be encoded, the request cannot be constructed, or the
client's `Do` returns an error. When `Do` returns a response, whatever its status,
`SendMessage` returns nil. In every case the client is asked at most once. -/
theorem SendMessage_error_cases (rt : Runtime) (s : slack) (ctx : Context) (message : String)
    (w : World) :
    (∀ err, rt.jsonMarshal { Channel := s.Channel, Text := message } = .error err →
        (SendMessage rt s ctx message w).2 = some ("failed to marshal json body: " ++ err)
        ∧ (SendMessage rt s ctx message w).1.httpCalls = w.httpCalls)
    ∧ (∀ b err, rt.jsonMarshal { Channel := s.Channel, Text := message } = .ok b →
        rt.NewRequestWithContext ctx "POST" "https://slack.com/api/chat.postMessage" b
          = .error err →
        (SendMessage rt s ctx message w).2 = some ("failed to make http request: " ++ err)
        ∧ (SendMessage rt s ctx message w).1.httpCalls = w.httpCalls)
    ∧ (∀ b req err, rt.jsonMarshal { Channel := s.Channel, Text := message } = .ok b →
        rt.NewRequestWithContext ctx "POST" "https://slack.com/api/chat.postMessage" b
          = .ok req →
        s.httpClient.Do w.httpCalls.length
          ((req.headerAdd "authorization" ("Bearer " ++ s.token)).headerAdd
            "content-type" "application/json; charset=UTF-8") = .error err →
        (SendMessage rt s ctx message w).2 = some ("failed to request slack: " ++ err)
        ∧ (SendMessage rt s ctx message w).1.httpCalls.length = w.httpCalls.length + 1)
    ∧ (∀ b req resp, rt.jsonMarshal { Channel := s.Channel, Text := message } = .ok b →
        rt.NewRequestWithContext ctx "POST" "https://slack.com/api/chat.postMessage" b
          = .ok req →
        s.httpClient.Do w.httpCalls.length
          ((req.headerAdd "authorization" ("Bearer " ++ s.token)).headerAdd
            "content-type" "application/json; charset=UTF-8") = .ok resp →
        (SendMessage rt s ctx message w).2 = none
        ∧ (SendMessage rt s ctx message w).1.httpCalls
            = w.httpCalls ++ [(req.headerAdd "authorization" ("Bearer " ++ s.token)).headerAdd
                "content-type" "application/json; charset=UTF-8"]) := by
  refine ⟨?_, ?_, ?_, ?_⟩
  · intro err h1
    simp [SendMessage, h1]
  · intro b err h1 h2
    simp [SendMessage, h1, h2]
  · intro b req err h1 h2 h3
    simp [SendMessage, h1, h2, h3]
  · intro b req resp h1 h2 h3
    simp [SendMessage, h1, h2, h3]

/-! ## Configuration -/

theorem Second_ne_zero : Second ≠ 0 := by decide

theorem five_seconds_ne_zero : 5 * Second ≠ 0 := by decide

theorem useDefault_fields (rt : Runtime) (c : Config) :
    (c.useDefault rt).Interval = (if c.Interval = 0 then Second else c.Interval)
    ∧ (c.useDefault rt).MessageChannelSize
        = (if c.MessageChannelSize = 0 then 10 else c.MessageChannelSize)
    ∧ (c.useDefault rt).Log = (if c.Log.isNone then some defaultLog else c.Log)
    ∧ (c.useDefault rt).HTTPClient
        = (if c.HTTPClient.isNone then some rt.DefaultClient else c.HTTPClient)
    ∧ (c.useDefault rt).Timeout = (if c.Timeout = 0 then 5 * Second else c.Timeout) := by
  obtain ⟨i, m, l, h, t⟩ := c
  simp only [Config.useDefault]
  by_cases hi : i = 0 <;> by_cases hm : m = 0 <;> by_cases hl : l.isNone = true <;>
    by_cases hh : h.isNone = true <;> by_cases ht : t = 0 <;>
    simp [hi, hm, hl, hh, ht]

theorem Config.ext_fields (a b : Config) (h1 : a.Interval = b.Interval)
    (h2 : a.MessageChannelSize = b.MessageChannelSize) (h3 : a.Log = b.Log)
    (h4 : a.HTTPClient = b.HTTPClient) (h5 : a.Timeout = b.Timeout) : a = b := by
  cases a; cases b; simp_all

theorem useDefault_idem (rt : Runtime) (c : Config) :
    (c.useDefault rt).useDefault rt = c.useDefault rt := by
  obtain ⟨h1, h2, h3, h4, h5⟩ := useDefault_fields rt (c.useDefault rt)
  obtain ⟨g1, g2, g3, g4, g5⟩ := useDefault_fields rt c
  apply Config.ext_fields
  · rw [h1, g1]; by_cases hi : c.Interval = 0 <;> simp [hi, Second_ne_zero]
  · rw [h2, g2]; by_cases hm : c.MessageChannelSize = 0 <;> simp [hm]
  · rw [h3, g3]; by_cases hl : c.Log.isNone = true <;> simp [hl]
  · rw [h4, g4]; by_cases hh : c.HTTPClient.isNone = true <;> simp [hh]
  · rw [h5, g5]; by_cases ht : c.Timeout = 0 <;> simp [ht, five_seconds_ne_zero]

/-- C9: `useDefault` replaces each zero-valued field by its default (one second,
10, the stderr logger, `http.DefaultClient`, five seconds) and keeps every
non-zero field; it is idempotent; and `NewSlack` is `NewSlackWithConfig` at the
empty config, whose defaulted form is the all-defaults config, from which the
service it returns takes its ticker period, queue capacity, log sink, client and
timeout. -/
theorem useDefault_fills_defaults_and_is_idempotent (rt : Runtime) (c : Config)
    (ctx : Context) (token channel : String) :
    ((c.useDefault rt).Interval = (if c.Interval = 0 then Second else c.Interval)
      ∧ (c.useDefault rt).MessageChannelSize
          = (if c.MessageChannelSize = 0 then 10 else c.MessageChannelSize)
      ∧ (c.useDefault rt).Log = (if c.Log.isNone then some defaultLog else c.Log)
      ∧ (c.useDefault rt).HTTPClient
          = (if c.HTTPClient.isNone then some rt.DefaultClient else c.HTTPClient)
      ∧ (c.useDefault rt).Timeout = (if c.Timeout = 0 then 5 * Second else c.Timeout))
    ∧ (Second = 1000000000 ∧ 5 * Second = 5000000000)
    ∧ (c.useDefault rt).useDefault rt = c.useDefault rt
    ∧ NewSlack rt ctx token channel = NewSlackWithConfig rt ctx token channel Config.zero
    ∧ Config.zero.useDefault rt = Config.allDefaults rt
    ∧ NewSlack rt ctx token channel
        = NewSlackWithConfig rt ctx token channel (Config.allDefaults rt)
    ∧ (∃ s, NewSlack rt ctx token channel = some s
        ∧ s.Channel = channel ∧ s.token = token
        ∧ s.ticker = Second
        ∧ s.messageCh = Chan.make 10
        ∧ s.log = defaultLog
        ∧ s.httpClient = rt.DefaultClient
        ∧ s.slackTimeout = 5 * Second) := by
  have hz : Config.zero.useDefault rt = Config.allDefaults rt := rfl
  have hd : (Config.allDefaults rt).useDefault rt = Config.allDefaults rt := by
    rw [← hz]; exact useDefault_idem rt Config.zero
  refine ⟨useDefault_fields rt c, ⟨by decide, by decide⟩, useDefault_idem rt c, rfl, hz,
    ?_, ?_⟩
  · unfold NewSlack NewSlackWithConfig
    rw [hz, hd]
  · refine ⟨_, rfl, rfl, rfl, rfl, rfl, rfl, rfl, rfl⟩

/-! ## The timeout of the flush -/

theorem SendMessage_slackTimeout (rt : Runtime) (s : slack) (t : Duration) (ctx : Context)
    (message : String) (w : World) :
    SendMessage rt { s with slackTimeout := t } ctx message w = SendMessage rt s ctx message w :=
  rfl

theorem flushMessage_slackTimeout (rt : Runtime) (s : slack) (t : Duration) (w : World) :
    flushMessage rt { s with slackTimeout := t } w
      = ({ (flushMessage rt s w).1 with slackTimeout := t }, (flushMessage rt s w).2) := by
  by_cases h : s.buffer = []
  · rw [flushMessage_nil rt s w h, flushMessage_nil rt { s with slackTimeout := t } w h]
  · rw [flushMessage_cons rt s w h, flushMessage_cons rt { s with slackTimeout := t } w h]
    rfl

theorem iteration_slackTimeout (rt : Runtime) (ev : Event) (s : slack) (t : Duration)
    (w : World) :
    iteration rt ev { s with slackTimeout := t } w
      = ({ (iteration rt ev s w).1 with slackTimeout := t }, (iteration rt ev s w).2) := by
  cases ev with
  | tick =>
    rw [iteration_tick, iteration_tick, flushMessage_slackTimeout]
    cases h : (flushMessage rt s w).2.2 <;> simp [h, callLog]
  | message =>
    simp only [iteration]
    split <;> rfl
  | done =>
    rw [iteration_done, iteration_done]
    have hc : flushChan { s with slackTimeout := t } = { flushChan s with slackTimeout := t } := by
      rw [flushChan_eq, flushChan_eq]
    rw [hc, flushMessage_slackTimeout]
    cases h : (flushMessage rt (flushChan s) w).2.2 <;> simp [h, callLog]
  | addMessage m =>
    simp only [iteration, AddMessage]
    split <;> rfl

theorem useDefault_Timeout (rt : Runtime) (c : Config) (t : Duration) :
    Config.useDefault rt { c with Timeout := t }
      = { c.useDefault rt with Timeout := if t = 0 then 5 * Second else t } := by
  obtain ⟨g1, g2, g3, g4, _⟩ := useDefault_fields rt c
  obtain ⟨h1, h2, h3, h4, h5⟩ := useDefault_fields rt { c with Timeout := t }
  apply Config.ext_fields
  · rw [h1, g1]
  · rw [h2, g2]
  · rw [h3, g3]
  · rw [h4, g4]
  · rw [h5]

theorem NewSlackWithConfig_Timeout (rt : Runtime) (ctx : Context) (token channel : String)
    (c : Config) (t : Duration) :
    NewSlackWithConfig rt ctx token channel { c with Timeout := t }
      = (NewSlackWithConfig rt ctx token channel c).map
          (fun s => { s with slackTimeout := if t = 0 then 5 * Second else t }) := by
  unfold NewSlackWithConfig
  rw [useDefault_Timeout]
  generalize c.useDefault rt = d
  obtain ⟨i, m, l, h, t0⟩ := d
  simp only []
  by_cases hm : m < 0
  · simp [hm]
  · by_cases hi : i ≤ 0
    · simp [hm, hi]
    · cases l <;> cases h <;> simp [hm, hi]

/-- C10: take two services built from configs that differ only in `Timeout`, give
them the same buffer and run them in the same world. Their stored `slackTimeout`
values are the two configured ones, yet `flushMessage` produces the same world and
the same error in both, and in both it calls `SendMessage` (when the buffer is not
empty) with the same batch under a context whose timeout is five seconds. The same
holds for every iteration of the loop, tick and shutdown included: changing the
stored `slackTimeout` changes nothing but that field. -/
theorem flush_timeout_ignores_configured_timeout (rt : Runtime) (ctx : Context)
    (token channel : String) (c : Config) (t1 t2 : Duration) (s1 s2 : slack)
    (b : List String) (w : World)
    (h1 : NewSlackWithConfig rt ctx token channel { c with Timeout := t1 } = some s1)
    (h2 : NewSlackWithConfig rt ctx token channel { c with Timeout := t2 } = some s2) :
    s1.slackTimeout = (if t1 = 0 then 5 * Second else t1)
    ∧ s2.slackTimeout = (if t2 = 0 then 5 * Second else t2)
    ∧ (flushMessage rt { s1 with buffer := b } w).2 = (flushMessage rt { s2 with buffer := b } w).2
    ∧ (flushMessage rt { s1 with buffer := b } w).2.1.sendCalls
        = w.sendCalls ++
            (if b = [] then [] else [({ timeout := some (5 * Second) }, stringsJoin b "\n")])
    ∧ (flushMessage rt { s2 with buffer := b } w).2.1.sendCalls
        = w.sendCalls ++
            (if b = [] then [] else [({ timeout := some (5 * Second) }, stringsJoin b "\n")])
    ∧ (∀ ev, (iteration rt ev { s1 with buffer := b } w).2
        = (iteration rt ev { s2 with buffer := b } w).2)
    ∧ (∀ (s : slack) (t : Duration) (ev : Event),
        iteration rt ev { s with slackTimeout := t } w
          = ({ (iteration rt ev s w).1 with slackTimeout := t }, (iteration rt ev s w).2)) := by
  rw [NewSlackWithConfig_Timeout] at h1 h2
  cases h0 : NewSlackWithConfig rt ctx token channel c with
  | none => rw [h0] at h1; exact absurd h1 (by simp)
  | some s0 =>
    rw [h0] at h1 h2
    simp only [Option.map_some', Option.some.injEq] at h1 h2
    subst h1
    subst h2
    have hsend : ∀ s : slack, (flushMessage rt { s with buffer := b } w).2.1.sendCalls
        = w.sendCalls ++
            (if b = [] then [] else [({ timeout := some (5 * Second) }, stringsJoin b "\n")]) := by
      intro s
      rw [flushMessage_sendCalls]
      by_cases hb : b = []
      · simp [batchesOf, hb]
      · simp [batchesOf, hb, flushContext, WithTimeout, Background]
    have hf : ∀ t : Duration, (flushMessage rt { { s0 with slackTimeout := t } with buffer := b } w).2
        = (flushMessage rt { s0 with buffer := b } w).2 := by
      intro t
      have e : ({ { s0 with slackTimeout := t } with buffer := b } : slack)
          = { { s0 with buffer := b } with slackTimeout := t } := rfl
      rw [e, flushMessage_slackTimeout]
    have hi : ∀ (t : Duration) (ev : Event),
        (iteration rt ev { { s0 with slackTimeout := t } with buffer := b } w).2
          = (iteration rt ev { s0 with buffer := b } w).2 := by
      intro t ev
      have e : ({ { s0 with slackTimeout := t } with buffer := b } : slack)
          = { { s0 with buffer := b } with slackTimeout := t } := rfl
      rw [e, iteration_slackTimeout]
    refine ⟨rfl, rfl, ?_, hsend _, hsend _, ?_, ?_⟩
    · exact (hf (if t1 = 0 then 5 * Second else t1)).trans
        (hf (if t2 = 0 then 5 * Second else t2)).symm
    · intro ev
      exact (hi (if t1 = 0 then 5 * Second else t1) ev).trans
        (hi (if t2 = 0 then 5 * Second else t2) ev).symm
    · intro s t ev
      exact iteration_slackTimeout rt ev s t w

/-- C10, at the timeouts of one second and thirty seconds: the stored values differ
and both flushes of `a, b` send `a\nb` under the five-second context. -/
theorem flush_timeout_ignores_configured_timeout_witness :
    NewSlackWithConfig stdRuntime Background "xoxb" "#alert"
        { Config.zero with Timeout := 1 * Second } = some (built Second 10 (1 * Second))
    ∧ NewSlackWithConfig stdRuntime Background "xoxb" "#alert"
        { Config.zero with Timeout := 30 * Second } = some (built Second 10 (30 * Second))
    ∧ (built Second 10 (1 * Second)).slackTimeout = 1000000000
    ∧ (built Second 10 (30 * Second)).slackTimeout = 30000000000
    ∧ (flushMessage stdRuntime { built Second 10 (1 * Second) with buffer := ["a", "b"] }
        World.empty).2.1.sendCalls = [({ timeout := some 5000000000 }, "a\nb")]
    ∧ (flushMessage stdRuntime { built Second 10 (30 * Second) with buffer := ["a", "b"] }
        World.empty).2.1.sendCalls = [({ timeout := some 5000000000 }, "a\nb")] := by
  have key := flush_timeout_ignores_configured_timeout stdRuntime Background "xoxb" "#alert"
    Config.zero (1 * Second) (30 * Second) (built Second 10 (1 * Second))
    (built Second 10 (30 * Second)) ["a", "b"] World.empty rfl rfl
  refine ⟨rfl, rfl, by decide, by decide, ?_, ?_⟩
  · rw [key.2.2.2.1]; rfl
  · rw [key.2.2.2.2.1]; rfl

/-! ## The freshly built service -/

theorem NewSlackWithConfig_some (rt : Runtime) (ctx : Context) (token channel : String)
    (config : Config) (s : slack)
    (h : NewSlackWithConfig rt ctx token channel config = some s) :
    0 < (config.useDefault rt).MessageChannelSize
    ∧ s.buffer = List.replicate (config.useDefault rt).MessageChannelSize.toNat ""
    ∧ s.messageCh = Chan.make (config.useDefault rt).MessageChannelSize.toNat := by
  have hne : (config.useDefault rt).MessageChannelSize ≠ 0 := by
    rw [(useDefault_fields rt config).2.1]
    by_cases hm : config.MessageChannelSize = 0 <;> simp [hm]
  unfold NewSlackWithConfig at h
  simp only [] at h
  by_cases hm : (config.useDefault rt).MessageChannelSize < 0
  · simp [hm] at h
  · by_cases hi : (config.useDefault rt).Interval ≤ 0
    · simp [hm, hi] at h
    · rw [if_neg hm, if_neg hi] at h
      have hpos : 0 < (config.useDefault rt).MessageChannelSize := by omega
      split at h
      · simp only [Option.some.injEq] at h
        subst h
        exact ⟨hpos, rfl, rfl⟩
      · exact absurd h (by simp)

theorem run_no_flush_running (rt : Runtime) (evs : List Event) (s : slack) (w : World)
    (h : ∀ e ∈ evs, e.flushes = false) : (startService rt evs s w).2.2 = false := by
  induction evs generalizing s w with
  | nil => rfl
  | cons ev evs ih =>
    have hev : ev.flushes = false := h ev (List.mem_cons_self _ _)
    have hx : (iteration rt ev s w).2.2 = false := by
      rw [iteration_exits]
      cases ev <;> simp_all [Event.flushes]
    rw [startService_cons, hx]
    simp only [Bool.false_eq_true, if_false]
    exact ih _ _ (fun e he => h e (List.mem_cons_of_mem _ he))

/-- C1: what the code does. A service built by `NewSlackWithConfig` starts with a
buffer of as many empty strings as the (positive) queue size, not with an empty
buffer. So after a run without a flush, which sends nothing, the next tick sends one
batch: the newline-join of those empty strings followed by the arrived messages. -/
theorem fresh_service_first_batch (rt : Runtime) (ctx : Context) (token channel : String)
    (config : Config) (s : slack) (evs : List Event) (w : World)
    (h : NewSlackWithConfig rt ctx token channel config = some s)
    (hev : ∀ e ∈ evs, e.flushes = false) :
    0 < (config.useDefault rt).MessageChannelSize
    ∧ s.buffer = List.replicate (config.useDefault rt).MessageChannelSize.toNat ""
    ∧ (startService rt evs s w).2.1.sendCalls = w.sendCalls
    ∧ (startService rt (evs ++ [Event.tick]) s w).2.1.sendCalls
        = w.sendCalls ++
            [(flushContext,
              stringsJoin
                (List.replicate (config.useDefault rt).MessageChannelSize.toNat "" ++
                  arrived rt evs s w) "\n")] := by
  obtain ⟨hpos, hbuf, _⟩ := NewSlackWithConfig_some rt ctx token channel config s h
  obtain ⟨hb, hs⟩ := run_no_flush rt evs s w hev
  have hrun := run_no_flush_running rt evs s w hev
  refine ⟨hpos, hbuf, hs, ?_⟩
  rw [startService_append rt evs [Event.tick] s w hrun, run_sendCalls, hs]
  have hne : s.buffer ++ arrived rt evs s w ≠ [] := by
    rw [hbuf]
    intro h0
    have hlen := congrArg List.length h0
    simp at hlen
    omega
  have hx : (iteration rt Event.tick (startService rt evs s w).1
      (startService rt evs s w).2.1).2.2 = false := by
    rw [iteration_exits]; rfl
  have hh : handed rt [Event.tick] (startService rt evs s w).1 (startService rt evs s w).2.1
      = [s.buffer ++ arrived rt evs s w] := by
    rw [handed_cons, hx]
    simp [handedIn, hb, handed]
  rw [hh]
  rw [batchesOf_singleton _ hne, hbuf]

/-- C1, at the queue size 2 with the messages `a` and `b` enqueued and received
before the first tick: the batch is `\n\na\nb`, which is not `a\nb`. -/
theorem fresh_service_first_batch_witness :
    NewSlackWithConfig stdRuntime Background "xoxb" "#alert"
        { Config.zero with Interval := 100 * Millisecond, MessageChannelSize := 2 }
      = some (built (100 * Millisecond) 2 (5 * Second))
    ∧ (∀ e ∈ [Event.addMessage "a", Event.addMessage "b", Event.message, Event.message],
        e.flushes = false)
    ∧ (built (100 * Millisecond) 2 (5 * Second)).buffer = ["", ""]
    ∧ (startService stdRuntime
          ([Event.addMessage "a", Event.addMessage "b", Event.message, Event.message]
            ++ [Event.tick])
          (built (100 * Millisecond) 2 (5 * Second)) World.empty).2.1.sendCalls
        = [(flushContext, "\n\na\nb")]
    ∧ "\n\na\nb" ≠ "a\nb" := by
  have key := fresh_service_first_batch stdRuntime Background "xoxb" "#alert"
    { Config.zero with Interval := 100 * Millisecond, MessageChannelSize := 2 }
    (built (100 * Millisecond) 2 (5 * Second))
    [Event.addMessage "a", Event.addMessage "b", Event.message, Event.message]
    World.empty rfl (by decide)
  refine ⟨rfl, by decide, rfl, ?_, by decide⟩
  rw [key.2.2.2]
  rfl

/-- C2: what the code does. A service built by `NewSlackWithConfig`, to which no
message was added (its queue is empty), calls `SendMessage` once when it is shut
down: the buffer it starts with is not empty, and the final flush sends the
newline-join of its empty strings. -/
theorem fresh_service_shutdown_sends_once (rt : Runtime) (ctx : Context)
    (token channel : String) (config : Config) (s : slack) (evs : List Event) (w : World)
    (h : NewSlackWithConfig rt ctx token channel config = some s) :
    s.messageCh.buf = []
    ∧ s.messageCh.sendq = []
    ∧ s.buffer ≠ []
    ∧ (iteration rt Event.done s w).2.1.sendCalls
        = w.sendCalls ++
            [(flushContext,
              stringsJoin
                (List.replicate (config.useDefault rt).MessageChannelSize.toNat "") "\n")]
    ∧ (iteration rt Event.done s w).2.1.sendCalls.length = w.sendCalls.length + 1
    ∧ startService rt (Event.done :: evs) s w = iteration rt Event.done s w := by
  obtain ⟨hpos, hbuf, hch⟩ := NewSlackWithConfig_some rt ctx token channel config s h
  have hq : s.messageCh.buf = [] := by rw [hch]; rfl
  have hsq : s.messageCh.sendq = [] := by rw [hch]; rfl
  have hne : s.buffer ≠ [] := by
    rw [hbuf]
    intro h0
    have hlen := congrArg List.length h0
    simp at hlen
    omega
  have hsend : (iteration rt Event.done s w).2.1.sendCalls
      = w.sendCalls ++
          [(flushContext,
            stringsJoin
              (List.replicate (config.useDefault rt).MessageChannelSize.toNat "") "\n")] := by
    rw [iteration_sendCalls]
    simp only [handedIn, flushChan_buffer, hq, hsq, List.append_nil]
    rw [batchesOf_singleton _ hne, hbuf]
  refine ⟨hq, hsq, hne, hsend, ?_, ?_⟩
  · rw [hsend]; simp
  · rw [startService_cons, iteration_exits]
    simp

/-- C2, at the service of `NewSlack` shut down at once: one call of `SendMessage`,
with a text of nine newlines. -/
theorem fresh_service_shutdown_sends_once_witness :
    NewSlack stdRuntime Background "xoxb" "#alert" = some (built Second 10 (5 * Second))
    ∧ (built Second 10 (5 * Second)).messageCh.buf = []
    ∧ (built Second 10 (5 * Second)).messageCh.sendq = []
    ∧ (startService stdRuntime [Event.done] (built Second 10 (5 * Second))
        World.empty).2.1.sendCalls = [(flushContext, "\n\n\n\n\n\n\n\n\n")] := by
  have key := fresh_service_shutdown_sends_once stdRuntime Background "xoxb" "#alert"
    Config.zero (built Second 10 (5 * Second)) [] World.empty rfl
  refine ⟨rfl, key.1, key.2.1, ?_⟩
  rw [key.2.2.2.2.2, key.2.2.2.1]
  rfl

end slackbuffer
